import Mathlib

/-!
Verification of the NightLab WebApp API core (`bot/api/webapp_api.py`):
the Telegram launch-data signature validator, the application creation
flow, and the application read path.  Pure Python functions are embedded
as Lean functions; the database layer (`bot.db`, not part of the sources)
is modelled from the specification; machine integers are `Nat`/`Int` with
explicit reduction modulo 2^32 where the hash algorithm overflows; time
and money are `ℚ`.
-/

namespace NightLab

/-! ## SHA-256 and HMAC-SHA256 (the `hashlib` / `hmac` library calls) -/

/-- Truncate to a 32-bit word. -/
def w32 (x : Nat) : Nat := x % 4294967296

/-- Right rotation of a 32-bit word. -/
def rotr (x n : Nat) : Nat := w32 ((x >>> n) ||| (x <<< (32 - n)))

/-- The SHA-256 choice function. -/
def ch (x y z : Nat) : Nat := (x &&& y) ^^^ ((x ^^^ 4294967295) &&& z)

/-- The SHA-256 majority function. -/
def maj (x y z : Nat) : Nat := (x &&& y) ^^^ (x &&& z) ^^^ (y &&& z)

def bsig0 (x : Nat) : Nat := rotr x 2 ^^^ rotr x 13 ^^^ rotr x 22

def bsig1 (x : Nat) : Nat := rotr x 6 ^^^ rotr x 11 ^^^ rotr x 25

def ssig0 (x : Nat) : Nat := rotr x 7 ^^^ rotr x 18 ^^^ (x >>> 3)

def ssig1 (x : Nat) : Nat := rotr x 17 ^^^ rotr x 19 ^^^ (x >>> 10)

/-- The 64 SHA-256 round constants. -/
def sha256K : List Nat :=
  [1116352408, 1899447441, 3049323471, 3921009573, 961987163, 1508970993,
   2453635748, 2870763221, 3624381080, 310598401, 607225278, 1426881987,
   1925078388, 2162078206, 2614888103, 3248222580, 3835390401, 4022224774,
   264347078, 604807628, 770255983, 1249150122, 1555081692, 1996064986,
   2554220882, 2821834349, 2952996808, 3210313671, 3336571891, 3584528711,
   113926993, 338241895, 666307205, 773529912, 1294757372, 1396182291,
   1695183700, 1986661051, 2177026350, 2456956037, 2730485921, 2820302411,
   3259730800, 3345764771, 3516065817, 3600352804, 4094571909, 275423344,
   430227734, 506948616, 659060556, 883997877, 958139571, 1322822218,
   1537002063, 1747873779, 1955562222, 2024104815, 2227730452, 2361852424,
   2428436474, 2756734187, 3204031479, 3329325298]

/-- The SHA-256 working state: eight 32-bit words. -/
structure Hash8 where
  a : Nat
  b : Nat
  c : Nat
  d : Nat
  e : Nat
  f : Nat
  g : Nat
  h : Nat
deriving Repr, DecidableEq

/-- The SHA-256 initial state. -/
def sha256Init : Hash8 :=
  ⟨1779033703, 3144134277, 1013904242, 2773480762, 1359893119, 2600822924, 528734635, 1541459225⟩

/-- Big-endian bytes of a number, fixed width. -/
def toBytesBE : Nat → Nat → List Nat
  | 0, _ => []
  | k + 1, n => toBytesBE k (n >>> 8) ++ [n &&& 255]

/-- Group bytes into big-endian 32-bit words. -/
def bytesToWords : List Nat → List Nat
  | b0 :: b1 :: b2 :: b3 :: rest =>
      ((b0 <<< 24) ||| (b1 <<< 16) ||| (b2 <<< 8) ||| b3) :: bytesToWords rest
  | _ => []

/-- Extend the 16 message words by `n` further schedule entries. -/
def extendSched : Nat → List Nat → List Nat
  | 0, acc => acc
  | n + 1, acc =>
      let t := acc.length
      let w := w32 (ssig1 (acc.getD (t - 2) 0) + acc.getD (t - 7) 0 +
                    ssig0 (acc.getD (t - 15) 0) + acc.getD (t - 16) 0)
      extendSched n (acc ++ [w])

/-- One SHA-256 round. -/
def round1 (st : Hash8) (kw : Nat × Nat) : Hash8 :=
  let t1 := w32 (st.h + bsig1 st.e + ch st.e st.f st.g + kw.1 + kw.2)
  let t2 := w32 (bsig0 st.a + maj st.a st.b st.c)
  ⟨w32 (t1 + t2), st.a, st.b, st.c, w32 (st.d + t1), st.e, st.f, st.g⟩

/-- Compress one 64-byte block into the state. -/
def compressBlock (st : Hash8) (block : List Nat) : Hash8 :=
  let ws := extendSched 48 (bytesToWords block)
  let s2 := (sha256K.zip ws).foldl round1 st
  ⟨w32 (st.a + s2.a), w32 (st.b + s2.b), w32 (st.c + s2.c), w32 (st.d + s2.d),
   w32 (st.e + s2.e), w32 (st.f + s2.f), w32 (st.g + s2.g), w32 (st.h + s2.h)⟩

/-- SHA-256 padding: append 0x80, zeros, and the 64-bit big-endian bit length. -/
def padMsg (msg : List Nat) : List Nat :=
  let len := msg.length
  let zeros := (119 - len % 64) % 64
  msg ++ [0x80] ++ List.replicate zeros 0 ++ toBytesBE 8 (8 * len)

/-- Split into 64-byte blocks, fuel-bounded by the list length. -/
def chunk64Go : Nat → List Nat → List (List Nat)
  | 0, _ => []
  | _, [] => []
  | fuel + 1, l => l.take 64 :: chunk64Go fuel (l.drop 64)

/-- Split into 64-byte blocks (the input length is a multiple of 64). -/
def chunk64 (l : List Nat) : List (List Nat) := chunk64Go l.length l

/-- SHA-256 of a byte list, as the 32 digest bytes (`hashlib.sha256(...).digest()`). -/
def sha256 (msg : List Nat) : List Nat :=
  let st := (chunk64 (padMsg msg)).foldl compressBlock sha256Init
  toBytesBE 4 st.a ++ toBytesBE 4 st.b ++ toBytesBE 4 st.c ++ toBytesBE 4 st.d ++
  toBytesBE 4 st.e ++ toBytesBE 4 st.f ++ toBytesBE 4 st.g ++ toBytesBE 4 st.h

/-- HMAC-SHA256 over byte lists (`hmac.new(key, msg, hashlib.sha256).digest()`). -/
def hmacSha256 (key msg : List Nat) : List Nat :=
  let k0 := if 64 < key.length then sha256 key else key
  let kp := k0 ++ List.replicate (64 - k0.length) 0
  sha256 ((kp.map (· ^^^ 0x5c)) ++ sha256 ((kp.map (· ^^^ 0x36)) ++ msg))

/-- UTF-8 encoding of one character. -/
def utf8Char (c : Char) : List Nat :=
  let n := c.toNat
  if n < 0x80 then [n]
  else if n < 0x800 then [0xc0 ||| (n >>> 6), 0x80 ||| (n &&& 0x3f)]
  else if n < 0x10000 then
    [0xe0 ||| (n >>> 12), 0x80 ||| ((n >>> 6) &&& 0x3f), 0x80 ||| (n &&& 0x3f)]
  else
    [0xf0 ||| (n >>> 18), 0x80 ||| ((n >>> 12) &&& 0x3f),
     0x80 ||| ((n >>> 6) &&& 0x3f), 0x80 ||| (n &&& 0x3f)]

/-- UTF-8 encoding of a string (Python's `str.encode()`). -/
def utf8Encode (s : String) : List Nat := (s.data.map utf8Char).flatten

/-- Lowercase hex digit character. -/
def hexDigit (n : Nat) : Char :=
  if n < 10 then Char.ofNat (48 + n) else Char.ofNat (87 + n)

/-- Lowercase hex rendering of bytes (Python's `.hexdigest()`). -/
def hexLower (bs : List Nat) : String :=
  String.mk (bs.foldr (fun b acc => hexDigit (b / 16) :: hexDigit (b % 16) :: acc) [])

/-- Uppercase hex digit character. -/
def hexDigitU (n : Nat) : Char :=
  if n < 10 then Char.ofNat (48 + n) else Char.ofNat (55 + n)

/-- Uppercase hex rendering of bytes (the spec's alternative rendering of a
signature; the code itself only ever produces the lowercase form). -/
def hexUpper (bs : List Nat) : String :=
  String.mk (bs.foldr (fun b acc => hexDigitU (b / 16) :: hexDigitU (b % 16) :: acc) [])

/-! ## Python string helpers used by `validate_telegram_init_data` -/

/-- Hex digit test, matching the characters `urllib.parse.unquote` decodes. -/
def isHexChar (c : Char) : Bool :=
  (48 ≤ c.toNat && c.toNat ≤ 57) || (97 ≤ c.toNat && c.toNat ≤ 102) ||
  (65 ≤ c.toNat && c.toNat ≤ 70)

/-- Numeric value of a hex digit character. -/
def hexCharVal (c : Char) : Nat :=
  if c.toNat ≤ 57 then c.toNat - 48
  else if 97 ≤ c.toNat then c.toNat - 87
  else c.toNat - 55

/-- Is this byte a UTF-8 continuation byte? -/
def isCont (b : Nat) : Bool := 128 ≤ b && b ≤ 191

/-- UTF-8 decoding with U+FFFD replacement on invalid sequences, fuel-bounded
(models the `errors="replace"` decoding inside `urllib.parse.unquote`). -/
def utf8DecodeReplace : Nat → List Nat → List Char
  | 0, _ => []
  | _, [] => []
  | fuel + 1, b :: rest =>
    if b < 128 then Char.ofNat b :: utf8DecodeReplace fuel rest
    else if 194 ≤ b && b ≤ 223 then
      match rest with
      | c1 :: r2 =>
        if isCont c1 then
          Char.ofNat (((b - 192) <<< 6) ||| (c1 - 128)) :: utf8DecodeReplace fuel r2
        else Char.ofNat 0xfffd :: utf8DecodeReplace fuel rest
      | [] => [Char.ofNat 0xfffd]
    else if 224 ≤ b && b ≤ 239 then
      match rest with
      | c1 :: c2 :: r3 =>
        if isCont c1 && isCont c2 then
          Char.ofNat (((b - 224) <<< 12) ||| ((c1 - 128) <<< 6) ||| (c2 - 128)) ::
            utf8DecodeReplace fuel r3
        else Char.ofNat 0xfffd :: utf8DecodeReplace fuel rest
      | _ => [Char.ofNat 0xfffd]
    else if 240 ≤ b && b ≤ 244 then
      match rest with
      | c1 :: c2 :: c3 :: r4 =>
        if isCont c1 && isCont c2 && isCont c3 then
          Char.ofNat (((b - 240) <<< 18) ||| ((c1 - 128) <<< 12) |||
                      ((c2 - 128) <<< 6) ||| (c3 - 128)) :: utf8DecodeReplace fuel r4
        else Char.ofNat 0xfffd :: utf8DecodeReplace fuel rest
      | _ => [Char.ofNat 0xfffd]
    else Char.ofNat 0xfffd :: utf8DecodeReplace fuel rest

/-- Take a maximal leading run of `%XX` escapes as raw bytes. -/
def takePctBytes : List Char → List Nat × List Char
  | '%' :: a :: b :: rest =>
    if isHexChar a && isHexChar b then
      let p := takePctBytes rest
      ((16 * hexCharVal a + hexCharVal b) :: p.1, p.2)
    else ([], '%' :: a :: b :: rest)
  | l => ([], l)

/-- Percent-decoding, fuel-bounded (`urllib.parse.unquote` keeps a `%` that is
not followed by two hex digits, and decodes maximal `%XX` runs as UTF-8). -/
def pyUnquoteGo : Nat → List Char → List Char
  | 0, l => l
  | fuel + 1, l =>
    match l with
    | [] => []
    | '%' :: a :: b :: rest =>
      if isHexChar a && isHexChar b then
        let p := takePctBytes ('%' :: a :: b :: rest)
        utf8DecodeReplace p.1.length p.1 ++ pyUnquoteGo fuel p.2
      else '%' :: pyUnquoteGo fuel (a :: b :: rest)
    | c :: rest => c :: pyUnquoteGo fuel rest

/-- Python's `urllib.parse.unquote` on a string. -/
def pyUnquote (s : String) : String := String.mk (pyUnquoteGo s.length s.data)

/-- Python `str.strip()`: drop leading and trailing whitespace (ASCII
whitespace; Python also strips some rarer Unicode spaces, which no claim
uses). -/
def pyStrip (s : String) : String :=
  String.mk (((s.data.dropWhile Char.isWhitespace).reverse.dropWhile Char.isWhitespace).reverse)

/-- Split a character list on a separator character, keeping empty parts
(Python `str.split(sep)` with a one-character separator). -/
def splitOnCharGo (c : Char) : List Char → List (List Char)
  | [] => [[]]
  | x :: xs =>
    let r := splitOnCharGo c xs
    if x == c then [] :: r
    else (x :: r.headD []) :: r.tail

/-- Python `s.split(c)` for a one-character separator. -/
def pySplitChar (s : String) (c : Char) : List String :=
  (splitOnCharGo c s.data).map String.mk

/-- Strict lexicographic comparison of character lists by code point
(Python `str` comparison). -/
def charListLt : List Char → List Char → Bool
  | [], [] => false
  | [], _ :: _ => true
  | _ :: _, [] => false
  | a :: as, b :: bs =>
    if a.toNat < b.toNat then true
    else if b.toNat < a.toNat then false
    else charListLt as bs

/-- Python `a <= b` on strings. -/
def strLe (a b : String) : Bool := a == b || charListLt a.data b.data

/-- Insert into an insertion-ordered string dict: an existing key keeps its
position and gets the new value, a new key is appended (Python `dict`). -/
def dictInsert (d : List (String × String)) (k v : String) : List (String × String) :=
  if d.any (fun p => p.1 == k) then
    d.map (fun p => if p.1 == k then (p.1, v) else p)
  else d ++ [(k, v)]

/-- `pair.split("=", 1)`: the part before the first `=` and the part after it. -/
def splitKV (pair : String) : String × String :=
  (String.mk (pair.data.takeWhile (fun c => c ≠ '=')),
   String.mk ((pair.data.dropWhile (fun c => c ≠ '=')).drop 1))

/-- The parameter-parsing loop of `validate_telegram_init_data` (lines 104-108):
split on `&`, keep pairs containing `=`, split each on the first `=`. -/
def parseParams (s : String) : List (String × String) :=
  (pySplitChar s '&').foldl
    (fun d pair =>
      if pair.data.contains '=' then dictInsert d (splitKV pair).1 (splitKV pair).2
      else d) []

/-- `dict.get(k, dflt)` on the ordered string dict. -/
def dictGetD (d : List (String × String)) (k dflt : String) : String :=
  (List.lookup k d).getD dflt

/-- The residue of `dict.pop(k, ...)`: the dict without key `k`. -/
def dictRemove (d : List (String × String)) (k : String) : List (String × String) :=
  d.filter (fun p => p.1 ≠ k)

/-- Insert a pair into a key-sorted list. -/
def insertSorted (x : String × String) : List (String × String) → List (String × String)
  | [] => [x]
  | y :: ys => if strLe x.1 y.1 then x :: y :: ys else y :: insertSorted x ys

/-- `sorted(params.items())`: ascending by key (keys are unique, so comparing
keys alone matches Python's tuple comparison). -/
def sortByKey (d : List (String × String)) : List (String × String) :=
  d.foldr insertSorted []

/-- The canonical data-check string (line 111): key-sorted `k=v` lines joined
by newlines. -/
def dataCheckString (d : List (String × String)) : String :=
  String.intercalate "\n" ((sortByKey d).map (fun p => p.1 ++ "=" ++ p.2))

/-- The raw signature bytes for a parameter dict: HMAC-SHA256 of the data-check
string, keyed by HMAC-SHA256(key="WebAppData", msg=bot token) (lines 112-113). -/
def sigBytes (botToken : String) (d : List (String × String)) : List Nat :=
  hmacSha256 (hmacSha256 (utf8Encode "WebAppData") (utf8Encode botToken))
    (utf8Encode (dataCheckString d))

/-- The computed signature as the code compares it: lowercase hex (line 113). -/
def computeSig (botToken : String) (d : List (String × String)) : String :=
  hexLower (sigBytes botToken d)

/-- Digits-only numeral value, or `none`. -/
def digitsVal (l : List Char) : Option Nat :=
  if l ≠ [] ∧ l.all Char.isDigit then
    some (l.foldl (fun a c => 10 * a + (c.toNat - 48)) 0)
  else none

/-- Python `int(s)` on a string: strip whitespace, optional sign, digits
(digit-group underscores are not modelled; no claim uses them). -/
def pyIntParse (s : String) : Option Int :=
  match (pyStrip s).data with
  | '-' :: rest => (digitsVal rest).map (fun n => -(n : Int))
  | '+' :: rest => (digitsVal rest).map (fun n => (n : Int))
  | l => (digitsVal l).map (fun n => (n : Int))

/-- Python's `needle in hay` on strings. -/
def strContainsSub (hay needle : String) : Bool :=
  hay.data.tails.any (fun t => needle.data.isPrefixOf t)

/-! ## JSON values and a model of `json.loads`

JSON numbers are modelled as integers; fractional and exponent literals are
rejected by the model (no claim involves them).  Python parses them to
floats, which have no shallow embedding here. -/

/-- A decoded JSON value (the result of `json.loads`). -/
inductive JVal where
  | null
  | bool (b : Bool)
  | int (n : Int)
  | str (s : String)
  | arr (elems : List JVal)
  | obj (fields : List (String × JVal))

mutual

/-- Structural equality of JSON values (Python `==` on the decoded values;
Python's numeric cross-type equalities such as `1 == True` are not modelled,
no claim compares across types). -/
def JVal.beq : JVal → JVal → Bool
  | .null, .null => true
  | .bool a, .bool b => a == b
  | .int a, .int b => a == b
  | .str a, .str b => a == b
  | .arr xs, .arr ys => JVal.beqL xs ys
  | .obj xs, .obj ys => JVal.beqF xs ys
  | _, _ => false

def JVal.beqL : List JVal → List JVal → Bool
  | [], [] => true
  | a :: as, b :: bs => JVal.beq a b && JVal.beqL as bs
  | _, _ => false

def JVal.beqF : List (String × JVal) → List (String × JVal) → Bool
  | [], [] => true
  | a :: as, b :: bs => a.1 == b.1 && JVal.beq a.2 b.2 && JVal.beqF as bs
  | _, _ => false

end

/-- Skip JSON whitespace. -/
def jskip (l : List Char) : List Char :=
  l.dropWhile (fun c => c == ' ' || c == '\t' || c == '\n' || c == '\r')

/-- Parse four hex digits (a `\uXXXX` escape). -/
def jparseHex4 : List Char → Option (Nat × List Char)
  | a :: b :: c :: d :: r =>
    if isHexChar a && isHexChar b && isHexChar c && isHexChar d then
      some (4096 * hexCharVal a + 256 * hexCharVal b + 16 * hexCharVal c + hexCharVal d, r)
    else none
  | _ => none

/-- Parse a JSON string body after the opening quote, fuel-bounded.  Raw
control characters are rejected (strict mode); surrogate pairing of `\u`
escapes is not modelled (no claim uses them). -/
def jparseStrGo : Nat → List Char → Option (List Char × List Char)
  | 0, _ => none
  | fuel + 1, l =>
    match l with
    | '"' :: r => some ([], r)
    | '\\' :: e :: r =>
      let esc : Option (List Char × List Char) :=
        match e with
        | '"' => some (['"'], r)
        | '\\' => some (['\\'], r)
        | '/' => some (['/'], r)
        | 'b' => some ([Char.ofNat 8], r)
        | 'f' => some ([Char.ofNat 12], r)
        | 'n' => some ([Char.ofNat 10], r)
        | 'r' => some ([Char.ofNat 13], r)
        | 't' => some ([Char.ofNat 9], r)
        | 'u' => (jparseHex4 r).map (fun p => ([Char.ofNat p.1], p.2))
        | _ => none
      match esc with
      | some (cs, r2) => (jparseStrGo fuel r2).map (fun p => (cs ++ p.1, p.2))
      | none => none
    | c :: r =>
      if c.toNat < 32 then none
      else (jparseStrGo fuel r).map (fun p => (c :: p.1, p.2))
    | [] => none

/-- Parse a JSON integer numeral (leading zeros rejected; a following `.`,
`e` or `E` would be a float literal, which the model rejects). -/
def jparseNum (l : List Char) : Option (Int × List Char) :=
  let core : List Char → Option (Nat × List Char) := fun l2 =>
    let ds := l2.takeWhile Char.isDigit
    let r := l2.dropWhile Char.isDigit
    if ds = [] then none
    else if 1 < ds.length ∧ ds.headD '0' = '0' then none
    else match r with
      | '.' :: _ => none
      | 'e' :: _ => none
      | 'E' :: _ => none
      | _ => some (ds.foldl (fun a c => 10 * a + (c.toNat - 48)) 0, r)
  match l with
  | '-' :: r => (core r).map (fun p => (-(p.1 : Int), p.2))
  | _ => (core l).map (fun p => ((p.1 : Int), p.2))

/-- Insert into an insertion-ordered JSON object dict: an existing key keeps
its position and gets the new value (Python `dict`, duplicate keys collapse
to the last value). -/
def jdictInsert (d : List (String × JVal)) (k : String) (v : JVal) : List (String × JVal) :=
  if d.any (fun p => p.1 == k) then
    d.map (fun p => if p.1 == k then (p.1, v) else p)
  else d ++ [(k, v)]

/-- Collapse parsed object members into dict fields. -/
def objCollapse (ms : List (String × JVal)) : List (String × JVal) :=
  ms.foldl (fun d p => jdictInsert d p.1 p.2) []

mutual

/-- Parse one JSON value, fuel-bounded. -/
def jparseVal : Nat → List Char → Option (JVal × List Char)
  | 0, _ => none
  | fuel + 1, l =>
    match jskip l with
    | 'n' :: 'u' :: 'l' :: 'l' :: r => some (.null, r)
    | 't' :: 'r' :: 'u' :: 'e' :: r => some (.bool true, r)
    | 'f' :: 'a' :: 'l' :: 's' :: 'e' :: r => some (.bool false, r)
    | '"' :: r => (jparseStrGo (r.length + 1) r).map (fun p => (.str (String.mk p.1), p.2))
    | '[' :: r =>
      match jskip r with
      | ']' :: r2 => some (.arr [], r2)
      | r2 => (jparseElems fuel r2).map (fun p => (.arr p.1, p.2))
    | c :: r =>
      if c.toNat == 123 then
        match jskip r with
        | c2 :: r2 =>
          if c2.toNat == 125 then some (.obj [], r2)
          else (jparseMembers fuel (c2 :: r2)).map (fun p => (.obj (objCollapse p.1), p.2))
        | [] => none
      else (jparseNum (c :: r)).map (fun p => (.int p.1, p.2))
    | [] => none

/-- Parse `"key": value` members up to the closing brace, fuel-bounded. -/
def jparseMembers : Nat → List Char → Option (List (String × JVal) × List Char)
  | 0, _ => none
  | fuel + 1, l =>
    match jskip l with
    | '"' :: r =>
      match jparseStrGo (r.length + 1) r with
      | none => none
      | some (kcs, r2) =>
        match jskip r2 with
        | ':' :: r3 =>
          match jparseVal fuel r3 with
          | none => none
          | some (v, r4) =>
            match jskip r4 with
            | ',' :: r5 => (jparseMembers fuel r5).map (fun p => ((String.mk kcs, v) :: p.1, p.2))
            | c :: r5 =>
              if c.toNat == 125 then some ([(String.mk kcs, v)], r5) else none
            | [] => none
        | _ => none
    | _ => none

/-- Parse array elements up to the closing bracket, fuel-bounded. -/
def jparseElems : Nat → List Char → Option (List JVal × List Char)
  | 0, _ => none
  | fuel + 1, l =>
    match jparseVal fuel l with
    | none => none
    | some (v, r) =>
      match jskip r with
      | ',' :: r2 => (jparseElems fuel r2).map (fun p => (v :: p.1, p.2))
      | ']' :: r2 => some ([v], r2)
      | _ => none

end

/-- Python's `json.loads`: parse one value, allow only trailing whitespace. -/
def jparse (s : String) : Option JVal :=
  match jparseVal (2 * s.length + 8) s.data with
  | some (v, rest) => if jskip rest = [] then some v else none
  | none => none

/-- Python `dict.get(k, dflt)` on a decoded JSON object (callers only apply it
to objects; non-objects are handled at the call sites, as in the source). -/
def jget (v : JVal) (k : String) (dflt : JVal) : JVal :=
  match v with
  | .obj fields => (List.lookup k fields).getD dflt
  | _ => dflt

/-- Python `str()` rendering of a decoded JSON value, used only by the
synthesized `f"user_{tg_id}"` default username.  Containers are rendered
approximately (no claim depends on their rendering). -/
def jvalPyStr : JVal → String
  | .null => "None"
  | .bool true => "True"
  | .bool false => "False"
  | .int n => toString n
  | .str s => s
  | .arr _ => "[...]"
  | .obj _ => "\x7b...\x7d"

/-! ## The signature validator (`validate_telegram_init_data`, lines 91-129) -/

/-- A raised `HTTPException(status_code, detail)`. -/
structure HErr where
  status : Nat
  detail : String
deriving Repr, DecidableEq

/-- Starlette's rendering `str(e)` of an `HTTPException`. -/
def herrStr (e : HErr) : String := toString e.status ++ ": " ++ e.detail

/-- The fixed development identity returned for an empty or `test_mode`
payload (line 97): `{"id": 123456, "username": "test_user"}`. -/
def devIdentity : JVal :=
  .obj [("id", .int 123456), ("username", .str "test_user")]

/-- The string `"{}"`, the `params.get("user", "{}")` default (line 125). -/
def emptyObjStr : String := "\x7b\x7d"

/-- `int(params.get("auth_date", 0))` (line 121): the default is the integer
`0`; a present value goes through `int(...)`, whose failure raises. -/
def authDateOf (rest : List (String × String)) : Option Int :=
  match List.lookup "auth_date" rest with
  | none => some 0
  | some s => pyIntParse s

/-- The body of the `try` block of `validate_telegram_init_data`
(lines 99-126): URL-decode, parse `&`-joined `k=v` pairs, pop `hash`,
compare the computed signature, check `auth_date` freshness, parse `user`.
Exception details raised by `int()` and `json.loads` are summarised; every
claim inspects only the status code of a failure. -/
def validateTry (botToken : String) (now : ℚ) (raw : String) : Except HErr JVal :=
  let params := parseParams (pyUnquote raw)
  let received_hash := dictGetD params "hash" ""
  let rest := dictRemove params "hash"
  let calculated_hash := computeSig botToken rest
  if calculated_hash ≠ received_hash then
    .error ⟨401, "Invalid init data signature"⟩
  else
    match authDateOf rest with
    | none => .error ⟨401, "invalid literal for int"⟩
    | some auth_date =>
      if now - (auth_date : ℚ) > 86400 then
        .error ⟨401, "Init data expired"⟩
      else
        match jparse (dictGetD rest "user" emptyObjStr) with
        | none => .error ⟨401, "user is not valid JSON"⟩
        | some u => .ok u

/-- The `except Exception` handler (lines 127-129): any failure inside the
`try` block is re-raised as `HTTPException(401, f"Auth failed: {str(e)}")`. -/
def wrapAuth (r : Except HErr JVal) : Except HErr JVal :=
  match r with
  | .ok v => .ok v
  | .error e => .error ⟨401, "Auth failed: " ++ herrStr e⟩

/-- `validate_telegram_init_data(init_data)` (lines 91-129).  The module
globals `BOT_TOKEN` and the clock are passed explicitly. -/
def validate_telegram_init_data (botToken : String) (now : ℚ) (init_data : String) :
    Except HErr JVal :=
  if botToken = "" then .error ⟨500, "BOT_TOKEN not configured"⟩
  else if init_data = "" ∨ init_data = "test_mode" then .ok devIdentity
  else wrapAuth (validateTry botToken now init_data)

/-- Does the result fail with an authentication error (HTTP 401, the spec's
`AuthError`)? -/
def isAuthError (r : Except HErr JVal) : Bool :=
  match r with
  | .error e => e.status == 401
  | .ok _ => false

/-! ## Application lifecycle model

The store (`bot.db`) is not among the sources; its operations are modelled
from the specification (§3, §4.2, §6), as marked on each definition.  Time
is `ℚ` seconds; `now_iso`-style timestamp rendering is abstracted to the
timestamp itself. -/

/-- The application state set (§4.2; stored as strings by the store). -/
inductive AppStatus where
  | WAITING_MERCHANT
  | MERCHANT_TAKEN
  | WAITING_PAYMENT
  | WAITING_RECEIPT
  | WAITING_CHECK
  | CONFIRMED
  | REJECTED
  | EXPIRED
deriving Repr, DecidableEq

/-- Is the status terminal (§3: `CONFIRMED`, `REJECTED` or `EXPIRED`)? -/
def AppStatus.isTerminal : AppStatus → Bool
  | .CONFIRMED => true
  | .REJECTED => true
  | .EXPIRED => true
  | _ => false

/-- The `STATUS_LABELS` display mapping (lines 240-249 and 407-416);
`STATUS_LABELS.get(status, status)` is total over the state set. -/
def statusLabel : AppStatus → String
  | .WAITING_MERCHANT => "Ожидает мерчанта"
  | .MERCHANT_TAKEN => "Взята мерчантом"
  | .WAITING_PAYMENT => "Ожидает оплату"
  | .WAITING_RECEIPT => "Ожидает чек"
  | .WAITING_CHECK => "На проверке"
  | .CONFIRMED => "Подтверждено"
  | .REJECTED => "Отклонено"
  | .EXPIRED => "Истекло время"

/-- A bank row as the endpoints read it (`bank_name`, `requisites_text`). -/
structure Bank where
  bank_name : String
  requisites_text : String

/-- An application record (§3). -/
structure Application where
  id : Nat
  user_tg_id : JVal
  bank_id : Int
  amount_uah : ℚ
  payment_code : String
  status : AppStatus
  requisites_text_override : Option String
  requisites_sent_at : Option ℚ
  expires_at : Option ℚ
  created_at : ℚ

/-- The persistent store visible to the two endpoints. -/
structure Store where
  users : List (JVal × JVal)
  banks : List (Int × Bank)
  countries : List (Int × String)
  apps : List Application
  nextAppId : Nat

/-- Modelled from the spec: `upsertUser(id, username)` (§3 User: create if
absent, otherwise leave core fields untouched; `bot.db` is not in the
sources). -/
def Store.upsertUser (st : Store) (tg_id username : JVal) : Store :=
  if st.users.any (fun p => JVal.beq p.1 tg_id) then st
  else { st with users := st.users ++ [(tg_id, username)] }

/-- Modelled from the spec: `getBank(id)` (§6 store interface; `bot.db` is
not in the sources). -/
def Store.getBank (st : Store) (bank_id : Int) : Option Bank :=
  List.lookup bank_id st.banks

/-- Modelled from the spec: `getCountry(id)` (§6 store interface; returns the
country name; `bot.db` is not in the sources). -/
def Store.getCountry (st : Store) (country_id : Int) : Option String :=
  List.lookup country_id st.countries

/-- Modelled from the spec: `createApplication(owner, bank, amount, code)`
inserts the application in state `WAITING_MERCHANT` with no requisites and
no deadline and returns its id (§4.2; `bot.db` is not in the sources). -/
def Store.createApp (st : Store) (tg_id : JVal) (bank_id : Int) (amount : ℚ)
    (code : String) (now : ℚ) : Store × Nat :=
  let app : Application :=
    ⟨st.nextAppId, tg_id, bank_id, amount, code, .WAITING_MERCHANT, none, none, none, now⟩
  ({ st with apps := st.apps ++ [app], nextAppId := st.nextAppId + 1 }, st.nextAppId)

/-- Modelled from the spec: `setRequisitesAndStartTimer(appId, text,
ttlMinutes)` copies the requisites into `requisites_text_override`, sets
`requisites_sent_at = now` and `expires_at = now + ttl` (§4.2; `bot.db` is
not in the sources). -/
def Store.setRequisitesAndStartTimer (st : Store) (appId : Nat) (text : String)
    (ttlMinutes : ℚ) (now : ℚ) : Store :=
  { st with
    apps := st.apps.map (fun a =>
      if a.id = appId then
        { a with requisites_text_override := some text,
                 requisites_sent_at := some now,
                 expires_at := some (now + ttlMinutes * 60) }
      else a) }

/-- Modelled from the spec: `checkExpiry(application)` (§4.2): if
`expires_at` is set, in the past, and the status is not terminal, the
application transitions to `EXPIRED`; otherwise it is unchanged. -/
def checkExpiry (now : ℚ) (a : Application) : Application :=
  match a.expires_at with
  | some t => if t < now ∧ a.status.isTerminal = false then { a with status := .EXPIRED } else a
  | none => a

/-- Modelled from the spec: `getApplication(id)` evaluates the lazy expiry
check on every read (§4.2; `bot.db` is not in the sources). -/
def Store.getApplication (st : Store) (appId : Nat) (now : ℚ) : Option Application :=
  (st.apps.find? (fun a => a.id == appId)).map (checkExpiry now)

/-! ## The `create_application` endpoint (lines 267-328) -/

/-- The request body (`ApplicationCreate`). -/
structure ApplicationCreate where
  init_data : String
  country_id : Int
  bank_id : Int
  amount_uah : ℚ

/-- The response model (`CreateAppResponse`); the ISO rendering of
`expires_at` is abstracted to the timestamp itself. -/
structure CreateAppResponse where
  success : Bool
  app_id : Option Nat
  message : String
  requisites : Option String
  expires_at : Option ℚ
  bank_name : Option String
  country_name : Option String
  amount : Option ℚ

/-- The auto-fulfillment test (line 296): the stripped requisites are
non-empty, longer than 5 characters, and free of the "не заданы" sentinel. -/
def hasRequisites (requisites : String) : Bool :=
  requisites ≠ "" && 5 < requisites.length && !(strContainsSub requisites "не заданы")

/-- A failure response: `CreateAppResponse(success=False, message=...)`. -/
def failResp (message : String) : CreateAppResponse :=
  ⟨false, none, message, none, none, none, none, none⟩

/-- `create_application(data)` (lines 267-328).  The module globals and the
random `payment_code` are passed explicitly; the returned pair is the store
after the call and the HTTP response.  A validation failure is caught by the
`except` handler (line 326) and becomes a `success=False` response, as does
a non-object `user` (whose `.get` would raise `AttributeError`). -/
def create_application (botToken : String) (now : ℚ) (payment_code : String)
    (st : Store) (data : ApplicationCreate) : Store × CreateAppResponse :=
  match validate_telegram_init_data botToken now data.init_data with
  | .error e => (st, failResp ("Ошибка: " ++ herrStr e))
  | .ok user =>
    match user with
    | .obj _ =>
      let tg_id := jget user "id" .null
      let username := jget user "username" (.str ("user_" ++ jvalPyStr tg_id))
      let st1 := st.upsertUser tg_id username
      if data.amount_uah ≤ 0 then
        (st1, failResp "Сумма должна быть больше 0")
      else
        match st1.getBank data.bank_id with
        | none => (st1, failResp "Банк не найден")
        | some bank =>
          let country_name := (st1.getCountry data.country_id).getD "Unknown"
          let created := st1.createApp tg_id data.bank_id data.amount_uah payment_code now
          let st2 := created.1
          let app_id := created.2
          let requisites := pyStrip bank.requisites_text
          if hasRequisites requisites then
            let st3 := st2.setRequisitesAndStartTimer app_id requisites 20 now
            (st3, ⟨true, some app_id, "Заявка создана! Реквизиты получены автоматически.",
                   some requisites, some (now + 20 * 60), some bank.bank_name,
                   some country_name, some data.amount_uah⟩)
          else
            (st2, ⟨true, some app_id, "Заявка создана! Ожидайте выдачи реквизитов оператором.",
                   none, none, some bank.bank_name, some country_name, some data.amount_uah⟩)
    | _ => (st, failResp "Ошибка: user has no attribute get")

/-! ## The `get_application_detail` endpoint (lines 396-432) -/

/-- The detail payload returned for an application. -/
structure AppDetail where
  id : Nat
  bank_name : String
  amount_uah : ℚ
  payment_code : String
  status : AppStatus
  status_label : String
  created_at : ℚ
  requisites_sent_at : Option ℚ
  expires_at : Option ℚ
  requisites : Option String

/-- The body of the `try` block of `get_application_detail` (lines 399-429).
The authenticated caller identity is modelled from the spec (the
`get_current_user` dependency, which is not among the sources, produces the
§3 AuthenticatedIdentity object).  An absent application and a foreign
application both raise `HTTPException(403, "Access denied")` (line 403). -/
def get_application_detail_try (st : Store) (now : ℚ) (app_id : Nat) (user : JVal) :
    Except HErr AppDetail :=
  let tg_id := jget user "id" .null
  match st.getApplication app_id now with
  | none => .error ⟨403, "Access denied"⟩
  | some app =>
    if JVal.beq app.user_tg_id tg_id = false then .error ⟨403, "Access denied"⟩
    else
      let bank := if app.bank_id ≠ 0 then st.getBank app.bank_id else none
      .ok ⟨app.id, (bank.map Bank.bank_name).getD "Unknown", app.amount_uah,
           app.payment_code, app.status, statusLabel app.status, app.created_at,
           app.requisites_sent_at, app.expires_at, app.requisites_text_override⟩

/-- `get_application_detail(app_id)` (lines 396-432): the `except` handler
re-raises any failure as `HTTPException(500, str(e))` (line 432). -/
def get_application_detail (st : Store) (now : ℚ) (app_id : Nat) (user : JVal) :
    Except HErr AppDetail :=
  match get_application_detail_try st now app_id user with
  | .ok d => .ok d
  | .error e => .error ⟨500, herrStr e⟩

/-- Does the result fail with status `s` (404 is the file's NotFound status,
403 its access-denial status)? -/
def errStatusIs (r : Except HErr AppDetail) (s : Nat) : Bool :=
  match r with
  | .error e => e.status == s
  | .ok _ => false

/-! ## Helper lemmas -/

theorem map_id_of_mem {α : Type} (l : List α) (f : α → α) (h : ∀ x ∈ l, f x = x) :
    l.map f = l := by
  induction l with
  | nil => rfl
  | cons a t ih => simp only [List.map_cons, h a (by simp), ih (fun x hx => h x (by simp [hx]))]

theorem upsertUser_apps (st : Store) (a b : JVal) : (st.upsertUser a b).apps = st.apps := by
  unfold Store.upsertUser; split <;> rfl

theorem upsertUser_banks (st : Store) (a b : JVal) : (st.upsertUser a b).banks = st.banks := by
  unfold Store.upsertUser; split <;> rfl

theorem upsertUser_countries (st : Store) (a b : JVal) :
    (st.upsertUser a b).countries = st.countries := by
  unfold Store.upsertUser; split <;> rfl

theorem upsertUser_nextAppId (st : Store) (a b : JVal) :
    (st.upsertUser a b).nextAppId = st.nextAppId := by
  unfold Store.upsertUser; split <;> rfl

theorem upsertUser_getBank (st : Store) (a b : JVal) (i : Int) :
    (st.upsertUser a b).getBank i = st.getBank i := by
  unfold Store.getBank; rw [upsertUser_banks]

theorem checkExpiry_user_tg_id (now : ℚ) (a : Application) :
    (checkExpiry now a).user_tg_id = a.user_tg_id := by
  unfold checkExpiry
  rcases h : a.expires_at with _ | t <;> simp only []
  split <;> rfl

/-! ## Concrete fixtures for witnesses and counterexamples -/

/-- A pre-terminal application with a deadline in the past (at `now = 1000`). -/
def appWaiting : Application :=
  ⟨1, .int 42, 5, 100, "ABC123", .WAITING_MERCHANT, some "card 4444", some 10, some 500, 10⟩

/-- A terminal application whose deadline is also in the past. -/
def appConfirmed : Application :=
  ⟨2, .int 42, 5, 100, "XYZ999", .CONFIRMED, some "card 4444", some 10, some 500, 10⟩

/-- A store holding one bank, one country and `appWaiting`. -/
def stOne : Store := ⟨[], [(5, ⟨"Mono", "card 4444 5555 6666"⟩)], [(1, "UA")], [appWaiting], 3⟩

/-- An empty store. -/
def stEmpty : Store := ⟨[], [], [], [], 1⟩

/-- The identity object of the owner of `appWaiting`. -/
def userAnn : JVal := .obj [("id", .int 42)]

/-- The identity object of a non-owner. -/
def userBob : JVal := .obj [("id", .int 7)]

theorem qfact_past : (500 : ℚ) < 1000 := by norm_num

/-! ## C9: the test-mode bypass -/

/-- C9: for every raw payload that is empty or equals the `test_mode` bypass
sentinel, `validate_telegram_init_data` returns the fixed development
identity `{"id": 123456, "username": "test_user"}`, before any signature,
expiry or field check (the only earlier check is that `BOT_TOKEN` is
configured, hence the hypothesis). -/
theorem bypass_returns_dev_identity (botToken : String) (now : ℚ) (init_data : String)
    (hTok : botToken ≠ "") (h : init_data = "" ∨ init_data = "test_mode") :
    validate_telegram_init_data botToken now init_data = .ok devIdentity := by
  unfold validate_telegram_init_data
  rw [if_neg hTok, if_pos h]

/-- Witness for C9: with a configured token, both the empty payload and the
`test_mode` sentinel yield the development identity. -/
theorem bypass_returns_dev_identity_witness :
    ("tok" : String) ≠ "" ∧
    validate_telegram_init_data "tok" 0 "" = .ok devIdentity ∧
    validate_telegram_init_data "tok" 0 "test_mode" = .ok devIdentity :=
  ⟨by decide,
   bypass_returns_dev_identity "tok" 0 "" (by decide) (Or.inl rfl),
   bypass_returns_dev_identity "tok" 0 "test_mode" (by decide) (Or.inr rfl)⟩

/-! ## C2: lazy expiry on read -/

/-- C2: a read of an application whose deadline is set and past and whose
status is not terminal reports status `EXPIRED` (the lazy `checkExpiry`
runs on every read), and `checkExpiry` leaves an application already in a
terminal state unchanged regardless of its deadline. -/
theorem read_reports_expired :
    (∀ (st : Store) (now : ℚ) (app_id : Nat) (user : JVal) (a : Application) (t : ℚ),
      st.apps.find? (fun x => x.id == app_id) = some a →
      a.expires_at = some t → t < now → a.status.isTerminal = false →
      JVal.beq a.user_tg_id (jget user "id" .null) = true →
      ∃ d : AppDetail, get_application_detail_try st now app_id user = .ok d ∧
        d.status = .EXPIRED) ∧
    (∀ (now : ℚ) (a : Application), a.status.isTerminal = true → checkExpiry now a = a) := by
  constructor
  · intro st now app_id user a t hFind hExp hPast hTerm hOwn
    have hce : checkExpiry now a = { a with status := .EXPIRED } := by
      unfold checkExpiry
      rw [hExp]
      simp only [if_pos (And.intro hPast hTerm)]
    unfold get_application_detail_try Store.getApplication
    rw [hFind]
    simp only [Option.map_some', hce]
    rw [show ({ a with status := AppStatus.EXPIRED } : Application).user_tg_id = a.user_tg_id
      from rfl]
    rw [hOwn]
    rw [if_neg (by simp)]
    exact ⟨_, rfl, rfl⟩
  · intro now a hTerm
    unfold checkExpiry
    rcases h : a.expires_at with _ | t
    · rfl
    · simp only [hTerm]
      rw [if_neg]
      simp

/-- Witness for C2: at `now = 1000` the pre-terminal `appWaiting` (deadline
500) is read back as `EXPIRED` by its owner, and `checkExpiry` leaves the
terminal `appConfirmed` unchanged. -/
theorem read_reports_expired_witness :
    stOne.apps.find? (fun x => x.id == 1) = some appWaiting ∧
    appWaiting.expires_at = some 500 ∧ (500 : ℚ) < 1000 ∧
    appWaiting.status.isTerminal = false ∧
    JVal.beq appWaiting.user_tg_id (jget userAnn "id" .null) = true ∧
    (∃ d : AppDetail, get_application_detail_try stOne 1000 1 userAnn = .ok d ∧
      d.status = .EXPIRED) ∧
    appConfirmed.status.isTerminal = true ∧
    checkExpiry 1000 appConfirmed = appConfirmed :=
  ⟨rfl, rfl, qfact_past, rfl, rfl,
   read_reports_expired.1 stOne 1000 1 userAnn appWaiting 500 rfl rfl qfact_past rfl rfl,
   rfl, read_reports_expired.2 1000 appConfirmed rfl⟩

/-! ## C8: ownership enforcement on reads -/

/-- Counterexample for C8: reading an absent application (the empty store
holds no application 1) does not fail with `NotFoundError` (no 404 is ever
raised on this path); it fails with the same 403 "Access denied" raised for
a foreign application, which the catch-all handler re-raises as a 500. -/
theorem absent_app_access_denied_cex :
    stEmpty.apps.find? (fun x => x.id == 1) = none ∧
    get_application_detail_try stEmpty 1000 1 userAnn = .error ⟨403, "Access denied"⟩ ∧
    errStatusIs (get_application_detail_try stEmpty 1000 1 userAnn) 404 = false ∧
    get_application_detail stEmpty 1000 1 userAnn = .error ⟨500, "403: Access denied"⟩ :=
  ⟨rfl, rfl, rfl, rfl⟩

/-- C8 (amended): every read of a specific application by a caller who is
not its owner fails with the 403 "Access denied" authorization error
(surfaced as a 500 by the catch-all handler), and a read of an absent
application fails with that same access-denied error, not with
`NotFoundError`. -/
theorem detail_read_denies :
    (∀ (st : Store) (now : ℚ) (app_id : Nat) (user : JVal) (a : Application),
      st.apps.find? (fun x => x.id == app_id) = some a →
      JVal.beq a.user_tg_id (jget user "id" .null) = false →
      get_application_detail_try st now app_id user = .error ⟨403, "Access denied"⟩ ∧
      get_application_detail st now app_id user = .error ⟨500, "403: Access denied"⟩) ∧
    (∀ (st : Store) (now : ℚ) (app_id : Nat) (user : JVal),
      st.apps.find? (fun x => x.id == app_id) = none →
      get_application_detail_try st now app_id user = .error ⟨403, "Access denied"⟩ ∧
      get_application_detail st now app_id user = .error ⟨500, "403: Access denied"⟩) := by
  constructor
  · intro st now app_id user a hFind hOwn
    have htry : get_application_detail_try st now app_id user = .error ⟨403, "Access denied"⟩ := by
      unfold get_application_detail_try Store.getApplication
      rw [hFind]
      simp only [Option.map_some']
      rw [show JVal.beq (checkExpiry now a).user_tg_id (jget user "id" .null) =
            JVal.beq a.user_tg_id (jget user "id" .null) from by
        rw [checkExpiry_user_tg_id]]
      rw [hOwn]
      rw [if_pos rfl]
    refine ⟨htry, ?_⟩
    unfold get_application_detail
    rw [htry]
    rfl
  · intro st now app_id user hFind
    have htry : get_application_detail_try st now app_id user = .error ⟨403, "Access denied"⟩ := by
      unfold get_application_detail_try Store.getApplication
      rw [hFind]
      rfl
    refine ⟨htry, ?_⟩
    unfold get_application_detail
    rw [htry]
    rfl

/-- Witness for C8 (amended): the non-owner `userBob` is denied on the
present `appWaiting`, and any caller is denied on the absent application 9. -/
theorem detail_read_denies_witness :
    stOne.apps.find? (fun x => x.id == 1) = some appWaiting ∧
    JVal.beq appWaiting.user_tg_id (jget userBob "id" .null) = false ∧
    get_application_detail_try stOne 1000 1 userBob = .error ⟨403, "Access denied"⟩ ∧
    stOne.apps.find? (fun x => x.id == 9) = none ∧
    get_application_detail stOne 1000 9 userAnn = .error ⟨500, "403: Access denied"⟩ :=
  ⟨rfl, rfl,
   (detail_read_denies.1 stOne 1000 1 userBob appWaiting rfl rfl).1,
   rfl,
   (detail_read_denies.2 stOne 1000 9 userAnn rfl).2⟩

/-! ## C3: authentication failures never create applications -/

/-- C3: when `validate_telegram_init_data` fails (an `AuthError`, status
401), `create_application` inserts nothing (the store is untouched) and the
response is not a success. -/
theorem auth_failure_blocks_create (botToken : String) (now : ℚ) (code : String)
    (st : Store) (data : ApplicationCreate) (e : HErr)
    (hAuth : validate_telegram_init_data botToken now data.init_data = .error e)
    (hStatus : e.status = 401) :
    (create_application botToken now code st data).1 = st ∧
    (create_application botToken now code st data).2.success = false := by
  unfold create_application
  rw [hAuth]
  exact ⟨rfl, rfl⟩

/-! ## C7: non-positive amounts are rejected without persisting -/

/-- C7: a create request with a zero or negative amount fails with the
bad-amount validation failure (`success=False`, "Сумма должна быть больше
0") and no application record is persisted. -/
theorem nonpositive_amount_rejected (botToken : String) (now : ℚ) (code : String)
    (st : Store) (data : ApplicationCreate) (fields : List (String × JVal))
    (hOk : validate_telegram_init_data botToken now data.init_data = .ok (.obj fields))
    (hAmt : data.amount_uah ≤ 0) :
    (create_application botToken now code st data).2.success = false ∧
    (create_application botToken now code st data).2.message = "Сумма должна быть больше 0" ∧
    (create_application botToken now code st data).1.apps = st.apps := by
  unfold create_application
  rw [hOk]
  simp only [if_pos hAmt]
  exact ⟨rfl, rfl, upsertUser_apps ..⟩

/-! ## C10: the user upsert precedes the amount and bank checks -/

/-- C10: once validation succeeds, the user upsert happens before the amount
and bank preconditions, so even a create that fails with the bad-amount
validation failure or the bank-not-found failure leaves the store equal to
the upserted store (the user record was still created or updated). -/
theorem upsert_precedes_checks (botToken : String) (now : ℚ) (code : String)
    (st : Store) (data : ApplicationCreate) (fields : List (String × JVal))
    (hOk : validate_telegram_init_data botToken now data.init_data = .ok (.obj fields))
    (hFail : data.amount_uah ≤ 0 ∨ st.getBank data.bank_id = none) :
    (create_application botToken now code st data).2.success = false ∧
    (create_application botToken now code st data).1 =
      st.upsertUser (jget (JVal.obj fields) "id" JVal.null)
        (jget (JVal.obj fields) "username"
          (JVal.str ("user_" ++ jvalPyStr (jget (JVal.obj fields) "id" JVal.null)))) := by
  unfold create_application
  rw [hOk]
  by_cases hAmt : data.amount_uah ≤ 0
  · simp only [if_pos hAmt]
    exact ⟨by trivial, by trivial⟩
  · rcases hFail with h | hBank
    · exact absurd h hAmt
    · simp only [if_neg hAmt]
      rw [upsertUser_getBank, hBank]
      exact ⟨by trivial, by trivial⟩

/-! ## C6: the auto-fulfillment decision -/

/-- C6: creating against a bank whose stripped requisites are non-empty,
longer than the 5-character sanity length and free of the "не заданы"
sentinel (`hasRequisites`) persists an application with
`requisites_text_override` set to those requisites and
`expires_at = created_at + 20` minutes; against a bank with empty or
placeholder requisites the persisted application has no requisites and no
deadline.  The freshness hypothesis `hIds` is the store invariant that the
next application id is unused. -/
theorem autofulfill_requisites_and_deadline (botToken : String) (now : ℚ) (code : String)
    (st : Store) (data : ApplicationCreate) (fields : List (String × JVal)) (bank : Bank)
    (hOk : validate_telegram_init_data botToken now data.init_data = .ok (.obj fields))
    (hAmt : ¬(data.amount_uah ≤ 0))
    (hBank : st.getBank data.bank_id = some bank)
    (hIds : ∀ a ∈ st.apps, a.id ≠ st.nextAppId) :
    (hasRequisites (pyStrip bank.requisites_text) = true →
      ∃ a : Application,
        (create_application botToken now code st data).1.apps = st.apps ++ [a] ∧
        a.requisites_text_override = some (pyStrip bank.requisites_text) ∧
        a.created_at = now ∧
        a.expires_at = some (a.created_at + 20 * 60) ∧
        (create_application botToken now code st data).2.success = true) ∧
    (hasRequisites (pyStrip bank.requisites_text) = false →
      ∃ a : Application,
        (create_application botToken now code st data).1.apps = st.apps ++ [a] ∧
        a.requisites_text_override = none ∧
        a.expires_at = none ∧
        (create_application botToken now code st data).2.success = true) := by
  have hBank1 : ∀ u v, (st.upsertUser u v).getBank data.bank_id = some bank := by
    intro u v; rw [upsertUser_getBank]; exact hBank
  constructor
  · intro hReq
    unfold create_application
    rw [hOk]
    simp only [if_neg hAmt, hBank1, Store.createApp, Store.setRequisitesAndStartTimer, hReq,
      if_pos, upsertUser_apps, upsertUser_nextAppId, List.map_append, List.map_cons,
      List.map_nil]
    rw [map_id_of_mem st.apps _ (fun a ha => if_neg (hIds a ha))]
    exact ⟨_, rfl, rfl, rfl, rfl, trivial⟩
  · intro hReq
    unfold create_application
    rw [hOk]
    simp only [if_neg hAmt, hBank1, Store.createApp, hReq, upsertUser_apps,
      upsertUser_nextAppId, Bool.false_eq_true, if_false]
    exact ⟨_, rfl, rfl, rfl, trivial⟩

/-! ## Witness fixtures for the create flow (the `test_mode`-style empty
payload exercises the bypass, so validation succeeds with `devIdentity`) -/

/-- The development identity as an explicit object. -/
def devFields : List (String × JVal) := [("id", .int 123456), ("username", .str "test_user")]

/-- A store holding one bank with empty (placeholder) requisites. -/
def stBad : Store := ⟨[], [(6, ⟨"Pumb", ""⟩)], [], [], 1⟩

/-- Witness for C7: with a validated caller and `amount_uah = 0`, creation
fails with the bad-amount message and persists no application. -/
theorem nonpositive_amount_rejected_witness :
    validate_telegram_init_data "tok" 0 "" = .ok (.obj devFields) ∧
    ((⟨"", 1, 5, 0⟩ : ApplicationCreate).amount_uah ≤ 0) ∧
    (create_application "tok" 0 "AAAAAA" stOne ⟨"", 1, 5, 0⟩).2.success = false ∧
    (create_application "tok" 0 "AAAAAA" stOne ⟨"", 1, 5, 0⟩).2.message =
      "Сумма должна быть больше 0" ∧
    (create_application "tok" 0 "AAAAAA" stOne ⟨"", 1, 5, 0⟩).1.apps = stOne.apps :=
  have hOk : validate_telegram_init_data "tok" 0 "" = .ok (.obj devFields) := rfl
  have hAmt : ((⟨"", 1, 5, 0⟩ : ApplicationCreate) : ApplicationCreate).amount_uah ≤ 0 :=
    le_refl 0
  have h := nonpositive_amount_rejected "tok" 0 "AAAAAA" stOne ⟨"", 1, 5, 0⟩ devFields hOk hAmt
  ⟨hOk, hAmt, h.1, h.2.1, h.2.2⟩

/-- Witness for C10: with a validated caller and an unknown bank, creation
fails but the resulting store is exactly the user-upserted store. -/
theorem upsert_precedes_checks_witness :
    validate_telegram_init_data "tok" 0 "" = .ok (.obj devFields) ∧
    stOne.getBank 99 = none ∧
    (create_application "tok" 0 "AAAAAA" stOne ⟨"", 1, 99, 50⟩).2.success = false ∧
    (create_application "tok" 0 "AAAAAA" stOne ⟨"", 1, 99, 50⟩).1 =
      stOne.upsertUser (jget (JVal.obj devFields) "id" JVal.null)
        (jget (JVal.obj devFields) "username"
          (JVal.str ("user_" ++ jvalPyStr (jget (JVal.obj devFields) "id" JVal.null)))) :=
  have hOk : validate_telegram_init_data "tok" 0 "" = .ok (.obj devFields) := rfl
  have hBank : stOne.getBank 99 = none := rfl
  have h := upsert_precedes_checks "tok" 0 "AAAAAA" stOne ⟨"", 1, 99, 50⟩ devFields hOk
    (Or.inr hBank)
  ⟨hOk, hBank, h.1, h.2⟩

/-- Witness for C6: against the bank with real requisites the persisted
application carries them and a 20-minute deadline; against the bank with
empty requisites it carries neither. -/
theorem autofulfill_requisites_and_deadline_witness :
    validate_telegram_init_data "tok" 50 "" = .ok (.obj devFields) ∧
    stOne.getBank 5 = some ⟨"Mono", "card 4444 5555 6666"⟩ ∧
    hasRequisites (pyStrip "card 4444 5555 6666") = true ∧
    (∃ a : Application,
      (create_application "tok" 50 "AAAAAA" stOne ⟨"", 1, 5, 100⟩).1.apps = stOne.apps ++ [a] ∧
      a.requisites_text_override = some (pyStrip "card 4444 5555 6666") ∧
      a.created_at = 50 ∧
      a.expires_at = some (a.created_at + 20 * 60) ∧
      (create_application "tok" 50 "AAAAAA" stOne ⟨"", 1, 5, 100⟩).2.success = true) ∧
    stBad.getBank 6 = some ⟨"Pumb", ""⟩ ∧
    hasRequisites (pyStrip "") = false ∧
    (∃ a : Application,
      (create_application "tok" 50 "AAAAAA" stBad ⟨"", 1, 6, 100⟩).1.apps = stBad.apps ++ [a] ∧
      a.requisites_text_override = none ∧
      a.expires_at = none ∧
      (create_application "tok" 50 "AAAAAA" stBad ⟨"", 1, 6, 100⟩).2.success = true) :=
  have hOk : validate_telegram_init_data "tok" 50 "" = .ok (.obj devFields) := rfl
  have hAmt : ¬((⟨"", 1, 5, 100⟩ : ApplicationCreate).amount_uah ≤ 0) := by norm_num
  have hAmt2 : ¬((⟨"", 1, 6, 100⟩ : ApplicationCreate).amount_uah ≤ 0) := by norm_num
  have hIds1 : ∀ a ∈ stOne.apps, a.id ≠ stOne.nextAppId := by decide
  have hIds2 : ∀ a ∈ stBad.apps, a.id ≠ stBad.nextAppId := by decide
  have h1 := (autofulfill_requisites_and_deadline "tok" 50 "AAAAAA" stOne ⟨"", 1, 5, 100⟩
    devFields ⟨"Mono", "card 4444 5555 6666"⟩ hOk hAmt rfl hIds1).1 rfl
  have h2 := (autofulfill_requisites_and_deadline "tok" 50 "AAAAAA" stBad ⟨"", 1, 6, 100⟩
    devFields ⟨"Pumb", ""⟩ hOk hAmt2 rfl hIds2).2 rfl
  ⟨hOk, rfl, rfl, h1, rfl, rfl, h2⟩

/-! ## Symbolic execution lemmas for the validator -/

/-- A correctly signed, fresh payload whose `user` field parses is accepted
and yields the parsed user object. -/
theorem validate_ok (botToken : String) (now : ℚ) (init_data : String) (u : JVal) (d : Int)
    (hTok : botToken ≠ "") (h1 : init_data ≠ "") (h2 : init_data ≠ "test_mode")
    (hHash : List.lookup "hash" (parseParams (pyUnquote init_data)) =
      some (computeSig botToken (dictRemove (parseParams (pyUnquote init_data)) "hash")))
    (hDate : authDateOf (dictRemove (parseParams (pyUnquote init_data)) "hash") = some d)
    (hFresh : now - (d : ℚ) ≤ 86400)
    (hUser : jparse (dictGetD (dictRemove (parseParams (pyUnquote init_data)) "hash") "user"
      emptyObjStr) = some u) :
    validate_telegram_init_data botToken now init_data = .ok u := by
  have hr : dictGetD (parseParams (pyUnquote init_data)) "hash" "" =
      computeSig botToken (dictRemove (parseParams (pyUnquote init_data)) "hash") := by
    unfold dictGetD
    rw [hHash]
    rfl
  unfold validate_telegram_init_data
  rw [if_neg hTok, if_neg (by simp [h1, h2])]
  have hv : validateTry botToken now init_data = .ok u := by
    simp only [validateTry]
    rw [hr]
    rw [if_neg (fun hcon => hcon rfl)]
    simp only [hDate]
    rw [if_neg (not_lt.mpr hFresh)]
    simp only [hUser]
  rw [hv]
  rfl

/-- A payload whose supplied hash differs from the computed signature is
rejected with an `AuthError`. -/
theorem validate_mismatch (botToken : String) (now : ℚ) (init_data : String)
    (hTok : botToken ≠ "") (h1 : init_data ≠ "") (h2 : init_data ≠ "test_mode")
    (hNe : dictGetD (parseParams (pyUnquote init_data)) "hash" "" ≠
      computeSig botToken (dictRemove (parseParams (pyUnquote init_data)) "hash")) :
    isAuthError (validate_telegram_init_data botToken now init_data) = true := by
  unfold validate_telegram_init_data
  rw [if_neg hTok, if_neg (by simp [h1, h2])]
  have hv : validateTry botToken now init_data = .error ⟨401, "Invalid init data signature"⟩ := by
    simp only [validateTry]
    rw [if_pos (Ne.symm hNe)]
  rw [hv]
  rfl

/-- A correctly signed payload older than the freshness window is rejected
with an `AuthError`. -/
theorem validate_expired (botToken : String) (now : ℚ) (init_data : String) (d : Int)
    (hTok : botToken ≠ "") (h1 : init_data ≠ "") (h2 : init_data ≠ "test_mode")
    (hHash : List.lookup "hash" (parseParams (pyUnquote init_data)) =
      some (computeSig botToken (dictRemove (parseParams (pyUnquote init_data)) "hash")))
    (hDate : authDateOf (dictRemove (parseParams (pyUnquote init_data)) "hash") = some d)
    (hLate : 86400 < now - (d : ℚ)) :
    isAuthError (validate_telegram_init_data botToken now init_data) = true := by
  have hr : dictGetD (parseParams (pyUnquote init_data)) "hash" "" =
      computeSig botToken (dictRemove (parseParams (pyUnquote init_data)) "hash") := by
    unfold dictGetD
    rw [hHash]
    rfl
  unfold validate_telegram_init_data
  rw [if_neg hTok, if_neg (by simp [h1, h2])]
  have hv : validateTry botToken now init_data = .error ⟨401, "Init data expired"⟩ := by
    simp only [validateTry]
    rw [hr]
    rw [if_neg (fun hcon => hcon rfl)]
    simp only [hDate]
    rw [if_pos hLate]
  rw [hv]
  rfl

/-- A correctly signed, fresh payload whose `user` field is not valid JSON
is rejected with an `AuthError`. -/
theorem validate_badjson (botToken : String) (now : ℚ) (init_data : String) (d : Int)
    (hTok : botToken ≠ "") (h1 : init_data ≠ "") (h2 : init_data ≠ "test_mode")
    (hHash : List.lookup "hash" (parseParams (pyUnquote init_data)) =
      some (computeSig botToken (dictRemove (parseParams (pyUnquote init_data)) "hash")))
    (hDate : authDateOf (dictRemove (parseParams (pyUnquote init_data)) "hash") = some d)
    (hFresh : now - (d : ℚ) ≤ 86400)
    (hUser : jparse (dictGetD (dictRemove (parseParams (pyUnquote init_data)) "hash") "user"
      emptyObjStr) = none) :
    isAuthError (validate_telegram_init_data botToken now init_data) = true := by
  have hr : dictGetD (parseParams (pyUnquote init_data)) "hash" "" =
      computeSig botToken (dictRemove (parseParams (pyUnquote init_data)) "hash") := by
    unfold dictGetD
    rw [hHash]
    rfl
  unfold validate_telegram_init_data
  rw [if_neg hTok, if_neg (by simp [h1, h2])]
  have hv : validateTry botToken now init_data = .error ⟨401, "user is not valid JSON"⟩ := by
    simp only [validateTry]
    rw [hr]
    rw [if_neg (fun hcon => hcon rfl)]
    simp only [hDate]
    rw [if_neg (not_lt.mpr hFresh)]
    simp only [hUser]
  rw [hv]
  rfl

/-! ## C1: signature acceptance and rejection -/

/-- C1: a payload whose `hash` field equals the lowercase hex HMAC-SHA256
signature (keyed by HMAC-SHA256(key="WebAppData", msg=bot token)) of the
newline-joined, key-sorted `k=v` pairs of all other fields and whose
`auth_date` is within 86400 seconds of `now` validates to the identity
parsed from the `user` JSON field; a payload whose supplied hash differs
from that computed signature fails with an `AuthError`. -/
theorem signed_payload_validates (botToken : String) (now : ℚ) (init_data : String)
    (u : JVal) (d : Int)
    (hTok : botToken ≠ "") (h1 : init_data ≠ "") (h2 : init_data ≠ "test_mode") :
    (List.lookup "hash" (parseParams (pyUnquote init_data)) =
        some (computeSig botToken (dictRemove (parseParams (pyUnquote init_data)) "hash")) →
      authDateOf (dictRemove (parseParams (pyUnquote init_data)) "hash") = some d →
      now - (d : ℚ) ≤ 86400 →
      jparse (dictGetD (dictRemove (parseParams (pyUnquote init_data)) "hash") "user"
        emptyObjStr) = some u →
      validate_telegram_init_data botToken now init_data = .ok u) ∧
    (dictGetD (parseParams (pyUnquote init_data)) "hash" "" ≠
        computeSig botToken (dictRemove (parseParams (pyUnquote init_data)) "hash") →
      isAuthError (validate_telegram_init_data botToken now init_data) = true) :=
  ⟨fun hHash hDate hFresh hUser =>
     validate_ok botToken now init_data u d hTok h1 h2 hHash hDate hFresh hUser,
   fun hNe => validate_mismatch botToken now init_data hTok h1 h2 hNe⟩

/-! ## Concrete signed payloads

The hex digests below are the HMAC-SHA256 signatures of the corresponding
data-check strings under `tok0`; each is verified inside a witness by
evaluating `computeSig` in the kernel. -/

/-- A concrete bot token. -/
def tok0 : String := "123456:ABC-TOKEN"

/-- A correctly signed payload: fields `auth_date=999`, `user={"id":42}`,
and the lowercase hex signature. -/
def goodInit : String :=
  "auth_date=999&user=\x7b\"id\":42\x7d&hash=62cf0d11f580cac305c6c5d8ffa95814a7adb54391aefbd4fe81a1c0997bc270"

/-- The same fields with a wrong hash. -/
def badHashInit : String := "auth_date=999&user=\x7b\"id\":42\x7d&hash=00"

/-- The same fields with the correct signature rendered in uppercase hex. -/
def upperInit : String :=
  "auth_date=999&user=\x7b\"id\":42\x7d&hash=62CF0D11F580CAC305C6C5D8FFA95814A7ADB54391AEFBD4FE81A1C0997BC270"

/-- A correctly signed payload whose `user` field is not valid JSON. -/
def badUserInit : String :=
  "auth_date=999&user=xx&hash=3a6adb5ea6eebd0548421102c06a7bce5e6ebfa44ce6acf541983d997acabb17"

theorem qfact_fresh : (1000 : ℚ) - ((999 : Int) : ℚ) ≤ 86400 := by norm_num

theorem qfact_notlate : ¬(86400 < (1000 : ℚ) - ((999 : Int) : ℚ)) := by norm_num

theorem qfact_boundary : (87399 : ℚ) - ((999 : Int) : ℚ) = 86400 := by norm_num

set_option maxRecDepth 100000 in
/-- Witness for C1: the concrete signed payload `goodInit` validates to
the id-42 identity at `now = 1000`, and the same fields under the wrong
hash `badHashInit` fail with an `AuthError`. -/
theorem signed_payload_validates_witness :
    tok0 ≠ "" ∧ goodInit ≠ "" ∧ goodInit ≠ "test_mode" ∧
    List.lookup "hash" (parseParams (pyUnquote goodInit)) =
      some (computeSig tok0 (dictRemove (parseParams (pyUnquote goodInit)) "hash")) ∧
    authDateOf (dictRemove (parseParams (pyUnquote goodInit)) "hash") = some 999 ∧
    (1000 : ℚ) - ((999 : Int) : ℚ) ≤ 86400 ∧
    jparse (dictGetD (dictRemove (parseParams (pyUnquote goodInit)) "hash") "user"
      emptyObjStr) = some (JVal.obj [("id", JVal.int 42)]) ∧
    validate_telegram_init_data tok0 1000 goodInit = .ok (JVal.obj [("id", JVal.int 42)]) ∧
    dictGetD (parseParams (pyUnquote badHashInit)) "hash" "" ≠
      computeSig tok0 (dictRemove (parseParams (pyUnquote badHashInit)) "hash") ∧
    isAuthError (validate_telegram_init_data tok0 1000 badHashInit) = true := by
  have hHash : List.lookup "hash" (parseParams (pyUnquote goodInit)) =
      some (computeSig tok0 (dictRemove (parseParams (pyUnquote goodInit)) "hash")) := by
    decide
  have hDate : authDateOf (dictRemove (parseParams (pyUnquote goodInit)) "hash") =
      some 999 := by decide
  have hUser : jparse (dictGetD (dictRemove (parseParams (pyUnquote goodInit)) "hash") "user"
      emptyObjStr) = some (JVal.obj [("id", JVal.int 42)]) := rfl
  have hNe : dictGetD (parseParams (pyUnquote badHashInit)) "hash" "" ≠
      computeSig tok0 (dictRemove (parseParams (pyUnquote badHashInit)) "hash") := by
    decide
  refine ⟨by decide, by decide, by decide, hHash, hDate, qfact_fresh, hUser, ?_, hNe, ?_⟩
  · exact (signed_payload_validates tok0 1000 goodInit (JVal.obj [("id", JVal.int 42)]) 999
      (by decide) (by decide) (by decide)).1 hHash hDate qfact_fresh hUser
  · exact (signed_payload_validates tok0 1000 badHashInit (JVal.obj [("id", JVal.int 42)]) 999
      (by decide) (by decide) (by decide)).2 hNe

/-! ## C4: the hash comparison is case-sensitive, not case-insensitive -/

set_option maxRecDepth 100000 in
/-- Counterexample for C4: `upperInit` carries exactly the uppercase hex
rendering of the correct signature of its other fields, yet validation
rejects it with an `AuthError`, while the lowercase rendering (`goodInit`)
is accepted — the comparison at line 115 is exact, not case-insensitive. -/
theorem uppercase_hash_rejected_cex :
    dictGetD (parseParams (pyUnquote upperInit)) "hash" "" =
      hexUpper (sigBytes tok0 (dictRemove (parseParams (pyUnquote upperInit)) "hash")) ∧
    isAuthError (validate_telegram_init_data tok0 1000 upperInit) = true ∧
    validate_telegram_init_data tok0 1000 goodInit = .ok (JVal.obj [("id", JVal.int 42)]) := by
  refine ⟨by decide, ?_, ?_⟩
  · exact validate_mismatch tok0 1000 upperInit (by decide) (by decide) (by decide) (by decide)
  · exact validate_ok tok0 1000 goodInit (JVal.obj [("id", JVal.int 42)]) 999
      (by decide) (by decide) (by decide) (by decide) (by decide) qfact_fresh rfl

/-- C4 (amended): the comparison of the computed signature against the
supplied `hash` is exact against the lowercase hex rendering: a payload
whose hash is the uppercase rendering of the correct signature is rejected
with an `AuthError` whenever that rendering differs from the lowercase one
(that is, whenever the digest contains a letter). -/
theorem uppercase_hash_rejected (botToken : String) (now : ℚ) (init_data : String)
    (hTok : botToken ≠ "") (h1 : init_data ≠ "") (h2 : init_data ≠ "test_mode")
    (hHash : dictGetD (parseParams (pyUnquote init_data)) "hash" "" =
      hexUpper (sigBytes botToken (dictRemove (parseParams (pyUnquote init_data)) "hash")))
    (hDiff : hexUpper (sigBytes botToken (dictRemove (parseParams (pyUnquote init_data)) "hash")) ≠
      computeSig botToken (dictRemove (parseParams (pyUnquote init_data)) "hash")) :
    isAuthError (validate_telegram_init_data botToken now init_data) = true :=
  validate_mismatch botToken now init_data hTok h1 h2 (by rw [hHash]; exact hDiff)

set_option maxRecDepth 100000 in
/-- Witness for C4 (amended): the uppercase rendering in `upperInit` indeed
differs from the lowercase signature, and validation rejects the payload. -/
theorem uppercase_hash_rejected_witness :
    tok0 ≠ "" ∧
    dictGetD (parseParams (pyUnquote upperInit)) "hash" "" =
      hexUpper (sigBytes tok0 (dictRemove (parseParams (pyUnquote upperInit)) "hash")) ∧
    hexUpper (sigBytes tok0 (dictRemove (parseParams (pyUnquote upperInit)) "hash")) ≠
      computeSig tok0 (dictRemove (parseParams (pyUnquote upperInit)) "hash") ∧
    isAuthError (validate_telegram_init_data tok0 1000 upperInit) = true := by
  have hHash : dictGetD (parseParams (pyUnquote upperInit)) "hash" "" =
      hexUpper (sigBytes tok0 (dictRemove (parseParams (pyUnquote upperInit)) "hash")) := by
    decide
  have hDiff : hexUpper (sigBytes tok0 (dictRemove (parseParams (pyUnquote upperInit)) "hash")) ≠
      computeSig tok0 (dictRemove (parseParams (pyUnquote upperInit)) "hash") := by decide
  exact ⟨by decide, hHash, hDiff,
    uppercase_hash_rejected tok0 1000 upperInit (by decide) (by decide) (by decide) hHash hDiff⟩

/-! ## C5: the freshness window -/

set_option maxRecDepth 100000 in
/-- Counterexample for C5: `badUserInit` carries a valid signature and a
fresh `auth_date` (`now - auth_date = 1` second), yet validation fails with
an `AuthError`, because its `user` field is not valid JSON — so with a
valid signature, failure is not equivalent to `now - auth_date > 86400`. -/
theorem expiry_iff_cex :
    List.lookup "hash" (parseParams (pyUnquote badUserInit)) =
      some (computeSig tok0 (dictRemove (parseParams (pyUnquote badUserInit)) "hash")) ∧
    authDateOf (dictRemove (parseParams (pyUnquote badUserInit)) "hash") = some 999 ∧
    ¬(86400 < (1000 : ℚ) - ((999 : Int) : ℚ)) ∧
    isAuthError (validate_telegram_init_data tok0 1000 badUserInit) = true := by
  have hHash : List.lookup "hash" (parseParams (pyUnquote badUserInit)) =
      some (computeSig tok0 (dictRemove (parseParams (pyUnquote badUserInit)) "hash")) := by
    decide
  refine ⟨hHash, by decide, qfact_notlate, ?_⟩
  exact validate_badjson tok0 1000 badUserInit 999 (by decide) (by decide) (by decide)
    hHash (by decide) (not_lt.mp qfact_notlate) rfl

/-- C5 (amended): for a correctly signed payload whose `auth_date` parses
and whose `user` field parses as JSON, validation fails with an `AuthError`
exactly when `now - auth_date > 86400`, and at exactly
`now - auth_date = 86400` it passes (the boundary is inclusive). -/
theorem expiry_window_boundary (botToken : String) (now : ℚ) (init_data : String)
    (u : JVal) (d : Int)
    (hTok : botToken ≠ "") (h1 : init_data ≠ "") (h2 : init_data ≠ "test_mode")
    (hHash : List.lookup "hash" (parseParams (pyUnquote init_data)) =
      some (computeSig botToken (dictRemove (parseParams (pyUnquote init_data)) "hash")))
    (hDate : authDateOf (dictRemove (parseParams (pyUnquote init_data)) "hash") = some d)
    (hUser : jparse (dictGetD (dictRemove (parseParams (pyUnquote init_data)) "hash") "user"
      emptyObjStr) = some u) :
    (isAuthError (validate_telegram_init_data botToken now init_data) = true ↔
      86400 < now - (d : ℚ)) ∧
    (now - (d : ℚ) = 86400 → validate_telegram_init_data botToken now init_data = .ok u) := by
  constructor
  · constructor
    · intro hErr
      by_contra hNot
      rw [validate_ok botToken now init_data u d hTok h1 h2 hHash hDate (not_lt.mp hNot) hUser]
        at hErr
      simp [isAuthError] at hErr
    · intro hLate
      exact validate_expired botToken now init_data d hTok h1 h2 hHash hDate hLate
  · intro hEq
    exact validate_ok botToken now init_data u d hTok h1 h2 hHash hDate (le_of_eq hEq) hUser

set_option maxRecDepth 100000 in
/-- Witness for C5 (amended): at `now = 87399` the signed payload `goodInit`
(`auth_date = 999`) sits exactly on the `now - auth_date = 86400` boundary
and passes; the failure condition is equivalent to `86400 < now - auth_date`. -/
theorem expiry_window_boundary_witness :
    (87399 : ℚ) - ((999 : Int) : ℚ) = 86400 ∧
    (isAuthError (validate_telegram_init_data tok0 87399 goodInit) = true ↔
      86400 < (87399 : ℚ) - ((999 : Int) : ℚ)) ∧
    validate_telegram_init_data tok0 87399 goodInit = .ok (JVal.obj [("id", JVal.int 42)]) := by
  have hHash : List.lookup "hash" (parseParams (pyUnquote goodInit)) =
      some (computeSig tok0 (dictRemove (parseParams (pyUnquote goodInit)) "hash")) := by
    decide
  have h := expiry_window_boundary tok0 87399 goodInit (JVal.obj [("id", JVal.int 42)]) 999
    (by decide) (by decide) (by decide) hHash (by decide) rfl
  exact ⟨qfact_boundary, h.1, h.2 qfact_boundary⟩

set_option maxRecDepth 100000 in
/-- Witness for C3: a create request carrying the badly signed payload
`badHashInit` leaves the store untouched and returns a failure response. -/
theorem auth_failure_blocks_create_witness :
    validate_telegram_init_data tok0 1000 badHashInit =
      .error ⟨401, "Auth failed: 401: Invalid init data signature"⟩ ∧
    (401 : Nat) = 401 ∧
    (create_application tok0 1000 "AAAAAA" stOne ⟨badHashInit, 1, 5, 100⟩).1 = stOne ∧
    (create_application tok0 1000 "AAAAAA" stOne ⟨badHashInit, 1, 5, 100⟩).2.success = false := by
  have hAuth : validate_telegram_init_data tok0 1000 badHashInit =
      .error ⟨401, "Auth failed: 401: Invalid init data signature"⟩ := rfl
  have h := auth_failure_blocks_create tok0 1000 "AAAAAA" stOne ⟨badHashInit, 1, 5, 100⟩
    ⟨401, "Auth failed: 401: Invalid init data signature"⟩ hAuth rfl
  exact ⟨hAuth, rfl, h.1, h.2⟩

end NightLab
